import Mathlib

/-!
A verification development for the retrieval-augmented query pipeline of the
AI_RAG_Agent repository. The Python sources are shallowly embedded: float
vectors become lists of rationals, network collaborators (embedding provider,
Ollama model) become oracle functions passed as parameters, raised exceptions
become `Except` errors, and the Postgres execution of the one similarity
SELECT is modelled by an executable function together with a predicate for
the full ORDER BY / LIMIT contract.
-/

namespace Rag

/-- A record of the `files` table as declared in rag-logic/app/db/models.py
(`class File`): `filename` (String, primary key), `content` (Text) and
`embedding` (`Vector(384)`); vector components are modelled as rationals. -/
structure File where
  filename : String
  content : String
  embedding : List ℚ
  deriving DecidableEq

/-- Modelled from the spec: a physical row of the document store, a `File`
record together with its soft-delete mark (spec section 3, Document Record
lifecycle: records "may be soft-deleted/restored by external CRUD
operations"). The marking mechanism itself lives in the external
document-storage backend reached through the soft-delete / restore proxies of
rag-logic/app/services/file_operations.py and is not code under src/; the
retrieval SELECT in rag-logic/app/services/query_service.py reads only the
`filename`, `content` and `embedding` columns of each row. -/
structure StoredRow where
  file : File
  deleted : Bool
  deriving DecidableEq

/-- The dimension of the `embedding` column: `Vector(384)` in
rag-logic/app/db/models.py. -/
def vectorDim : Nat := 384

/-- Every stored embedding has the declared column dimension; the
`vector(384)` type modifier enforces this when a row is written. -/
def storeWF (db : List StoredRow) : Prop :=
  ∀ r ∈ db, r.file.embedding.length = vectorDim

instance (db : List StoredRow) : Decidable (storeWF db) := by
  unfold storeWF; infer_instance

/-- An error raised by Postgres while executing the similarity SELECT: the
pgvector `<=>` operator fails when its two argument vectors have different
dimensions. -/
inductive PgError where
  | dimensionMismatch
  deriving DecidableEq

/-- The sort key the SELECT computes for a row: the distance between the
query vector and the embedding stored in the row, as evaluated by the
pgvector `<=>` operator. That operator computes cosine distance, whose
numeric value involves square roots and has no exact rational form, so the
metric enters the embedding as an explicit parameter `dist`; every claim
settled in this file holds for, or is refuted independently of, the actual
formula of the metric. -/
def rowKey (dist : List ℚ → List ℚ → ℚ) (q : List ℚ) (r : StoredRow) : ℚ :=
  dist q r.file.embedding

/-- One Postgres execution of the statement both retrieval helpers send:
`SELECT filename, content, embedding <=> CAST(:embedding AS vector) AS
similarity FROM files ORDER BY embedding <=> CAST(:embedding AS vector)
LIMIT :top_k`. The distance expression is evaluated on every row (the ORDER
BY needs every key), and `<=>` raises as soon as some row embedding has a
dimension different from the query vector; on an empty table no row is
evaluated and no error is raised. Successful output is the rows in
ascending key order, cut to `top_k`, each carrying the selected columns.
Postgres leaves the relative order of rows with equal keys unspecified;
this executable model realises one admitted execution with a stable
insertion sort, and `pgSelectAdmits` below states the full contract. The
Python code serialises the query vector into the text form
`embedding_str` and Postgres parses it back; that round trip is the
identity on the vector and is elided here. -/
def pgSelectSimilar (dist : List ℚ → List ℚ → ℚ) (q : List ℚ)
    (db : List StoredRow) (top_k : Nat) :
    Except PgError (List (String × String × ℚ)) :=
  if db.all (fun r => r.file.embedding.length == q.length) then
    .ok (((db.insertionSort (fun a b => rowKey dist q a ≤ rowKey dist q b)).map
      (fun r => (r.file.filename, r.file.content, rowKey dist q r))).take top_k)
  else
    .error .dimensionMismatch

/-- The ORDER BY / LIMIT contract of the similarity SELECT: an output
Postgres may return consists of the first `top_k` rows of some permutation
of the table that is sorted by the distance key. Postgres guarantees no
more than this: the relative order (and, under LIMIT, the selection) of
rows with equal keys is unspecified. -/
def pgSelectAdmits (dist : List ℚ → List ℚ → ℚ) (q : List ℚ)
    (db : List StoredRow) (top_k : Nat) (out : List StoredRow) : Prop :=
  ∃ full : List StoredRow, full.Perm db ∧
    full.Pairwise (fun a b => rowKey dist q a ≤ rowKey dist q b) ∧
    out = full.take top_k

/-- FileData in rag-logic/app/models/schemas.py: one query result entry. -/
structure FileData where
  filename : String
  content : String
  similarity : ℚ
  deriving DecidableEq

namespace QueryService

/-- fetch_similar_files_pgvector of rag-logic/app/services/query_service.py
(lines 9 to 55): serialises `embedding`, executes the similarity SELECT with
the given `top_k` (default 5) and wraps each returned row as
`FileData(filename=row[0], content=row[1], similarity=row[2])`. -/
def fetch_similar_files_pgvector (dist : List ℚ → List ℚ → ℚ)
    (embedding : List ℚ) (db : List StoredRow) (top_k : Nat := 5) :
    Except PgError (List FileData) :=
  (pgSelectSimilar dist embedding db top_k).map
    (List.map fun row => ⟨row.1, row.2.1, row.2.2⟩)

end QueryService

namespace Retriever

/-- fetch_similar_files_pgvector of rag-logic/app/services/retriever.py
(lines 7 to 42): the second copy of the retrieval helper. Its executed SQL
differs from the query_service.py copy only in whitespace, and its row
mapping is the same `FileData(filename=row[0], content=row[1],
similarity=row[2])` comprehension. -/
def fetch_similar_files_pgvector (dist : List ℚ → List ℚ → ℚ)
    (embedding : List ℚ) (db : List StoredRow) (top_k : Nat := 5) :
    Except PgError (List FileData) :=
  (pgSelectSimilar dist embedding db top_k).map
    (List.map fun row => ⟨row.1, row.2.1, row.2.2⟩)

end Retriever

/-- An HTTP response from the embedding provider as the client observes it:
a status code and a JSON object body, of which only fields holding float
arrays matter to this client. -/
structure HttpResponse where
  status : Nat
  body : List (String × List ℚ)
  deriving DecidableEq

/-- How a call to the embedding provider fails in
rag-logic/app/services/embedding.py: the connection itself fails
(httpx.ConnectError, before any response exists), `raise_for_status` raises
on a 4xx/5xx status (httpx.HTTPStatusError, which carries the responses
status code), or the subscript in `response.json()["embedding"]` raises
KeyError on a body without that field (a KeyError carries only the missing
key, nothing of the provider response). -/
inductive EmbedError where
  | connectError
  | httpStatusError (status : Nat)
  | keyError (key : String)
  deriving DecidableEq

/-- get_embedding of rag-logic/app/services/embedding.py (lines 14 to 18):
POSTs the prompt to the provider (`provider` models the network: `none` is
an unreachable provider), calls `response.raise_for_status()`, then reads
the "embedding" field of the JSON body. -/
def get_embedding (provider : String → Option HttpResponse)
    (prompt : String) : Except EmbedError (List ℚ) :=
  match provider prompt with
  | none => .error .connectError
  | some resp =>
    if 400 ≤ resp.status then
      .error (.httpStatusError resp.status)
    else
      match resp.body.lookup "embedding" with
      | some v => .ok v
      | none => .error (.keyError "embedding")

/-- Whether an `EmbedError` carries the status of the provider response:
only the `raise_for_status` error does. A connection error precedes any
response, and the KeyError raised by `response.json()["embedding"]` names
only the missing field. -/
def carriesProviderStatus : EmbedError → Bool
  | .httpStatusError _ => true
  | _ => false

/-- The qa_template of rag-logic/app/services/llm_chain.py with `{context}`
and `{question}` substituted, exactly as PromptTemplate formats it. -/
def qaTemplate (context question : String) : String :=
  "You are a highly intelligent assistant with access to relevant context extracted from documents and database schemas.\n\nYour job is to answer questions accurately using the provided information. When answering, follow these rules:\n- Use only the information in the \"Context\" section below.\n- If the context is insufficient, clearly say so.\n- Do not make up information that is not present in the context.\n- Prefer concise, accurate, and unambiguous answers.\n- If the user question relates to SQL or database structure, reason step by step and return the SQL query needed to answer it.\n- Format any SQL queries using standard SQL syntax.\n\nContext:\n"
    ++ context ++ "\n\nQuestion:\n" ++ question ++ "\n\nAnswer:"

/-- The chain of rag-logic/app/services/llm_chain.py: `chain = prompt | llm`
formats qa_template with the given context and question and sends the result
to the Ollama model. `llm` is an oracle for that model: its text response to
a composed prompt string. `chain.invoke({"context": c, "question": q})` is
therefore `llm (qaTemplate c q)`. -/
def chain_invoke (llm : String → String) (context question : String) : String :=
  llm (qaTemplate context question)

/-- The Python `sep.join(parts)`: the parts concatenated with `sep` between
consecutive parts, and the empty string for an empty list. -/
def pyJoin (sep : String) : List String → String
  | [] => ""
  | [s] => s
  | s :: rest => s ++ sep ++ pyJoin sep rest

/-- The context assembly of run_query_pipeline
(rag-logic/app/services/query_service.py, line 64):
`"\n\n".join(f"{f.filename}:\n{f.content}" for f in files)`. -/
def assembleContext (files : List FileData) : String :=
  pyJoin "\n\n" (files.map fun f => f.filename ++ ":\n" ++ f.content)

/-- A failure of the query pipeline. run_query_pipeline catches nothing, so
an exception from the embedding call or from the database propagates to the
caller unchanged; the two stages that can raise are recorded here. -/
inductive PipelineError where
  | embedFailure (e : EmbedError)
  | storeFailure (e : PgError)
  deriving DecidableEq

/-- run_query_pipeline of rag-logic/app/services/query_service.py (lines 58
to 67): embeds the prompt, fetches similar files with the default `top_k`
(the call passes no k argument), assembles the context string and invokes
the LLM chain on context and question, returning the fetched files together
with the answer. -/
def run_query_pipeline (dist : List ℚ → List ℚ → ℚ)
    (provider : String → Option HttpResponse) (llm : String → String)
    (prompt : String) (db : List StoredRow) :
    Except PipelineError (List FileData × String) :=
  match get_embedding provider prompt with
  | .error e => .error (.embedFailure e)
  | .ok embedding =>
    match QueryService.fetch_similar_files_pgvector dist embedding db with
    | .error e => .error (.storeFailure e)
    | .ok files => .ok (files, chain_invoke llm (assembleContext files) prompt)

/-- The SQL statements the query pipeline sends to its Session: exactly one,
the similarity SELECT of fetch_similar_files_pgvector. -/
inductive SqlStmt where
  | selectSimilar (embedding : List ℚ) (top_k : Nat)

/-- db.execute on the pipeline Session: the result of the statement paired
with the table state after execution. The one statement is a SELECT, which
reads the table and writes nothing, so the table after execution is the
table given. -/
def sessionExecute (dist : List ℚ → List ℚ → ℚ) (db : List StoredRow) :
    SqlStmt → Except PgError (List (String × String × ℚ)) × List StoredRow
  | .selectSimilar e k => (pgSelectSimilar dist e db k, db)

/-- run_query_pipeline with the table state of its Session threaded through
explicitly: every db.execute the run issues goes through `sessionExecute`,
and the final table state is returned alongside the outcome, for success
and failure alike. -/
def run_query_pipeline_store (dist : List ℚ → List ℚ → ℚ)
    (provider : String → Option HttpResponse) (llm : String → String)
    (prompt : String) (db : List StoredRow) :
    Except PipelineError (List FileData × String) × List StoredRow :=
  match get_embedding provider prompt with
  | .error e => (.error (.embedFailure e), db)
  | .ok embedding =>
    match sessionExecute dist db (.selectSimilar embedding 5) with
    | (.error e, db1) => (.error (.storeFailure e), db1)
    | (.ok rows, db1) =>
      let files : List FileData := rows.map fun row => ⟨row.1, row.2.1, row.2.2⟩
      (.ok (files, chain_invoke llm (assembleContext files) prompt), db1)

/-- The embedding service request body, EmbedRequest of
rag-embedding-service/app/main.py. -/
structure EmbedRequest where
  text : String
  deriving DecidableEq

/-- HTTPException as raised by the embedding service endpoint: a status code
and a detail string. -/
structure HTTPException where
  status_code : Nat
  detail : String
  deriving DecidableEq

/-- The /embed endpoint of rag-embedding-service/app/main.py (lines 11 to
16): a falsy — that is, empty — `text` is rejected with HTTPException 400
"No text provided"; any other text is encoded. `encode` is an oracle for
`model.encode([req.text])[0].tolist()` of the sentence-transformer model. -/
def embed (encode : String → List ℚ) (req : EmbedRequest) :
    Except HTTPException (List ℚ) :=
  if req.text = "" then .error ⟨400, "No text provided"⟩
  else .ok (encode req.text)

/-- A concrete executable distance used by witnesses and counterexamples:
the squared Euclidean distance. The claims settled in this file do not
depend on the formula of the metric, so concrete instances may use this
stand-in for the cosine distance of `<=>`. -/
def sqDist (q v : List ℚ) : ℚ :=
  ((q.zip v).map fun p => (p.1 - p.2) ^ 2).sum

/-- A concrete 384-dimensional embedding vector. -/
def e384 : List ℚ := List.replicate vectorDim 1

/-- A stored record carrying the soft-delete mark, for concrete instances. -/
def rowDoc1 : StoredRow := ⟨⟨"doc1", "text one", e384⟩, true⟩

/-- A live stored record; shares its embedding with `rowB`. -/
def rowA : StoredRow := ⟨⟨"a.txt", "alpha", e384⟩, false⟩

/-- A second live stored record with the same embedding as `rowA`, so the
two rows are at the same distance from every query under every metric. -/
def rowB : StoredRow := ⟨⟨"b.txt", "beta", e384⟩, false⟩

/-- A live one-dimensional record at distance 0 from the query `[0]` under
`sqDist`. -/
def rowS1 : StoredRow := ⟨⟨"a", "x", [0]⟩, false⟩

/-- A live one-dimensional record at distance 4 from the query `[0]` under
`sqDist`. -/
def rowS2 : StoredRow := ⟨⟨"b", "y", [2]⟩, false⟩

/-- A provider oracle that always answers 200 with a one-dimensional
embedding `[0]`. -/
def okProvider : String → Option HttpResponse :=
  fun _ => some ⟨200, [("embedding", [0])]⟩

/-! ## Theorems -/

set_option maxRecDepth 8192

/-- Bridging lemma: the output of the executable SELECT model is one
execution admitted by the ORDER BY / LIMIT contract. -/
theorem insertionSort_admitted (dist : List ℚ → List ℚ → ℚ) (q : List ℚ)
    (db : List StoredRow) (top_k : Nat) :
    pgSelectAdmits dist q db top_k
      ((db.insertionSort (fun a b => rowKey dist q a ≤ rowKey dist q b)).take top_k) := by
  haveI : IsTotal StoredRow (fun a b => rowKey dist q a ≤ rowKey dist q b) :=
    ⟨fun a b => le_total _ _⟩
  haveI : IsTrans StoredRow (fun a b => rowKey dist q a ≤ rowKey dist q b) :=
    ⟨fun a b c hab hbc => le_trans hab hbc⟩
  exact ⟨_, List.perm_insertionSort _ db, List.sorted_insertionSort _ db, rfl⟩

/-- C10: the two copies of fetch_similar_files_pgvector, in
app/services/retriever.py and app/services/query_service.py, are
extensionally equal: for every metric, embedding, table state and top_k
they return the same ordered list of FileData results. -/
theorem C10_retriever_copies_agree (dist : List ℚ → List ℚ → ℚ)
    (embedding : List ℚ) (db : List StoredRow) (top_k : Nat) :
    Retriever.fetch_similar_files_pgvector dist embedding db top_k =
      QueryService.fetch_similar_files_pgvector dist embedding db top_k := rfl

/-- C9: running the query pipeline never mutates the store: for every
prompt, every oracle and every table state, the table after the run is the
table before, whether the run succeeds or fails. -/
theorem C9_pipeline_readonly (dist : List ℚ → List ℚ → ℚ)
    (provider : String → Option HttpResponse) (llm : String → String)
    (prompt : String) (db : List StoredRow) :
    (run_query_pipeline_store dist provider llm prompt db).2 = db := by
  unfold run_query_pipeline_store
  cases get_embedding provider prompt with
  | error e => rfl
  | ok embedding =>
    simp only [sessionExecute]
    cases pgSelectSimilar dist embedding db 5 with
    | error e => rfl
    | ok rows => rfl

/-- C5: the assembled context is the filename + ":\n" + content chunks of
the entries, in input order, joined by a blank-line separator, with the
empty string for the empty list — a characterization that leaves no room
for re-sorting, deduplication or truncation. -/
theorem C5_context_assembly :
    assembleContext [] = "" ∧
    ∀ (f : FileData) (fs : List FileData),
      assembleContext (f :: fs) =
        if fs.isEmpty then f.filename ++ ":\n" ++ f.content
        else (f.filename ++ ":\n" ++ f.content) ++ "\n\n" ++ assembleContext fs := by
  refine ⟨rfl, ?_⟩
  intro f fs
  cases fs with
  | nil => rfl
  | cons g gs => rfl

/-- C6: on an empty store the pipeline still invokes the language model —
the answer is exactly the model output on the template filled with the
empty context — and returns the empty match list with that answer. -/
theorem C6_empty_store_invokes_llm (dist : List ℚ → List ℚ → ℚ)
    (provider : String → Option HttpResponse) (llm : String → String)
    (prompt : String) (e : List ℚ)
    (hemb : get_embedding provider prompt = .ok e) :
    run_query_pipeline dist provider llm prompt [] =
      .ok ([], llm (qaTemplate "" prompt)) := by
  unfold run_query_pipeline
  rw [hemb]
  rfl

/-- Witness for C6: a pipeline run over the empty store, with a provider
answering the one-dimensional vector [0] and the identity model. -/
theorem C6_empty_store_invokes_llm_witness :
    run_query_pipeline sqDist okProvider (fun s => s) "hi" [] =
      .ok ([], qaTemplate "" "hi") :=
  C6_empty_store_invokes_llm sqDist okProvider (fun s => s) "hi" [0] rfl

/-- C8: the embedding boundary rejects a request exactly when its text is
empty — with status 400 and detail "No text provided" — and encodes any
other text, whitespace-only text included. -/
theorem C8_embed_rejects_iff_empty (encode : String → List ℚ) (t : String) :
    (embed encode ⟨t⟩ = .error ⟨400, "No text provided"⟩ ↔ t = "") ∧
    embed encode ⟨"   "⟩ = .ok (encode "   ") ∧
    (t = "" ∨ embed encode ⟨t⟩ = .ok (encode t)) := by
  refine ⟨?_, ?_, ?_⟩
  · by_cases h : t = "" <;> simp [embed, h]
  · simp [embed]
  · by_cases h : t = ""
    · exact .inl h
    · exact .inr (by simp [embed, h])

/-- C7 (amended): on an unreachable provider the Embedding Client fails
with the transport error; on an error status it fails with the
raise_for_status error, which carries the provider status; but on a
malformed success response without an "embedding" field it fails with a
KeyError that names only the missing field and carries no provider status
or detail — no translation to a typed upstream-unavailable error happens
anywhere in the client. -/
theorem C7_embed_client_errors (provider : String → Option HttpResponse)
    (t : String) :
    (provider t = none → get_embedding provider t = .error .connectError) ∧
    (∀ r, provider t = some r → 400 ≤ r.status →
      get_embedding provider t = .error (.httpStatusError r.status)) ∧
    (∀ r, provider t = some r → r.status < 400 →
      r.body.lookup "embedding" = none →
      get_embedding provider t = .error (.keyError "embedding") ∧
        carriesProviderStatus (.keyError "embedding") = false) := by
  refine ⟨?_, ?_, ?_⟩
  · intro h
    simp [get_embedding, h]
  · intro r hr hs
    simp [get_embedding, hr, hs]
  · intro r hr hs hl
    have hns : ¬ 400 ≤ r.status := not_le.mpr hs
    simp [get_embedding, hr, hns, hl, carriesProviderStatus]

/-- C7 counterexample: a malformed 200 response without an "embedding"
field makes get_embedding fail with KeyError "embedding", an error that
carries none of the provider status or detail the claim requires. -/
theorem C7_counterexample :
    get_embedding (fun _ => some ⟨200, [("data", [])]⟩) "hello" =
      .error (.keyError "embedding") ∧
    carriesProviderStatus (.keyError "embedding") = false := ⟨rfl, rfl⟩

/-- C1 (code evaluated at the failing input): a store whose single row is
marked deleted; the similarity SELECT has no deleted filter, so the query
returns that row — the marked-deleted record appears in the result list. -/
theorem C1_deleted_row_returned :
    rowDoc1.deleted = true ∧
    QueryService.fetch_similar_files_pgvector sqDist e384 [rowDoc1] 5 =
      .ok [⟨"doc1", "text one", sqDist e384 e384⟩] := ⟨rfl, rfl⟩

/-- C2 (amended): a query vector whose length differs from the store
dimension 384 makes the similarity search fail with the dimension-mismatch
error whenever the store is nonempty; on an empty store the distance
operator is never evaluated and the query succeeds with the empty result
list. In neither case is the vector truncated or padded. -/
theorem C2_dimension_guard (dist : List ℚ → List ℚ → ℚ) (q : List ℚ)
    (db : List StoredRow) (k : Nat) (hwf : storeWF db)
    (hq : q.length ≠ vectorDim) :
    QueryService.fetch_similar_files_pgvector dist q db k =
      if db.isEmpty then .ok [] else .error .dimensionMismatch := by
  cases db with
  | nil => simp [QueryService.fetch_similar_files_pgvector, pgSelectSimilar, Except.map]
  | cons r rs =>
    have h1 : r.file.embedding.length = vectorDim := hwf r (List.mem_cons_self r rs)
    have h2 : (r.file.embedding.length == q.length) = false := by
      rw [h1]
      exact beq_eq_false_iff_ne.mpr (fun e => hq e.symm)
    unfold QueryService.fetch_similar_files_pgvector pgSelectSimilar
    rw [List.all_cons, h2]
    rfl

/-- Witness for C2 (amended), at a nonempty well-formed store and the
one-dimensional query vector [1]. -/
theorem C2_dimension_guard_witness :
    QueryService.fetch_similar_files_pgvector sqDist [(1 : ℚ)] [rowA] 5 =
      if ([rowA] : List StoredRow).isEmpty then .ok []
      else .error .dimensionMismatch :=
  C2_dimension_guard sqDist [(1 : ℚ)] [rowA] 5 (by decide) (by decide)

/-- C2 counterexample: against the empty store, a query vector of length 1
(not 384) does not fail — the search returns the empty result list — so the
claim does not hold for every store state. -/
theorem C2_counterexample :
    QueryService.fetch_similar_files_pgvector sqDist [(1 : ℚ)]
      ([] : List StoredRow) 5 = .ok [] ∧
    [(1 : ℚ)].length ≠ vectorDim := ⟨rfl, by decide⟩

/-- Helper: a permutation that is sorted by a key on both sides is unique
once the keys are pairwise distinct. -/
theorem sorted_perm_eq {α : Type} (key : α → ℚ) :
    ∀ {l1 l2 : List α}, l1.Perm l2 →
      l1.Pairwise (fun a b => key a ≤ key b) →
      l2.Pairwise (fun a b => key a ≤ key b) →
      l1.Pairwise (fun a b => key a ≠ key b) →
      l1 = l2 := by
  intro l1
  induction l1 with
  | nil =>
    intro l2 hp _ _ _
    exact (List.perm_nil.mp hp.symm).symm
  | cons h1 t1 ih =>
    intro l2 hp hs1 hs2 hd1
    cases l2 with
    | nil => exact absurd (List.perm_nil.mp hp) (by simp)
    | cons h2 t2 =>
      obtain ⟨hsh1, hst1⟩ := List.pairwise_cons.mp hs1
      obtain ⟨hsh2, hst2⟩ := List.pairwise_cons.mp hs2
      obtain ⟨hdh1, hdt1⟩ := List.pairwise_cons.mp hd1
      have hh : h1 = h2 := by
        have m1 : h1 ∈ h2 :: t2 := hp.mem_iff.mp (List.mem_cons_self h1 t1)
        rcases List.mem_cons.mp m1 with he | ht
        · exact he
        · have hle2 : key h2 ≤ key h1 := hsh2 h1 ht
          have m2 : h2 ∈ h1 :: t1 := hp.symm.mem_iff.mp (List.mem_cons_self h2 t2)
          rcases List.mem_cons.mp m2 with he2 | ht2
          · exact he2.symm
          · exact absurd (le_antisymm (hsh1 h2 ht2) hle2) (hdh1 h2 ht2)
      subst hh
      rw [ih hp.cons_inv hst1 hst2 hdt1]

/-- C3 (amended): any two executions the ORDER BY / LIMIT contract admits
for the same corpus, query and k return the same ascending list of
distances; and when all stored rows are at pairwise distinct distances from
the query the two executions return identical row lists. Rows at identical
distance carry no order or selection guarantee. -/
theorem C3_order_contract (dist : List ℚ → List ℚ → ℚ) (q : List ℚ)
    (db : List StoredRow) (k : Nat) (out1 out2 : List StoredRow)
    (h1 : pgSelectAdmits dist q db k out1)
    (h2 : pgSelectAdmits dist q db k out2) :
    out1.map (rowKey dist q) = out2.map (rowKey dist q) ∧
    (db.Pairwise (fun a b => rowKey dist q a ≠ rowKey dist q b) →
      out1 = out2) := by
  obtain ⟨f1, p1, s1, rfl⟩ := h1
  obtain ⟨f2, p2, s2, rfl⟩ := h2
  have hperm : f1.Perm f2 := p1.trans p2.symm
  have hkeys : f1.map (rowKey dist q) = f2.map (rowKey dist q) := by
    have hs1m : (f1.map (rowKey dist q)).Sorted (· ≤ ·) := List.pairwise_map.mpr s1
    have hs2m : (f2.map (rowKey dist q)).Sorted (· ≤ ·) := List.pairwise_map.mpr s2
    exact List.eq_of_perm_of_sorted (hperm.map (rowKey dist q)) hs1m hs2m
  constructor
  · rw [List.map_take, List.map_take, hkeys]
  · intro hdist
    have hd1 : f1.Pairwise (fun a b => rowKey dist q a ≠ rowKey dist q b) := by
      refine (p1.pairwise_iff ?_).mpr hdist
      intro a b hab
      exact fun e => hab e.symm
    rw [sorted_perm_eq (rowKey dist q) hperm s1 s2 hd1]

/-- Witness for C3 (amended): two (identical) admitted executions over a
two-row store whose rows sit at the distinct distances 0 and 4 from the
query. -/
theorem C3_order_contract_witness :
    ([rowS1] : List StoredRow).map (rowKey sqDist [0]) =
      ([rowS1] : List StoredRow).map (rowKey sqDist [0]) ∧
    (([rowS1, rowS2] : List StoredRow).Pairwise
      (fun a b => rowKey sqDist [0] a ≠ rowKey sqDist [0] b) →
      ([rowS1] : List StoredRow) = [rowS1]) :=
  C3_order_contract sqDist [0] [rowS1, rowS2] 1 [rowS1] [rowS1]
    ⟨[rowS1, rowS2], List.Perm.refl _, by
      refine List.Pairwise.cons ?_ (List.pairwise_singleton _ _)
      intro b hb
      rw [List.mem_singleton] at hb
      subst hb
      norm_num [rowKey, sqDist, rowS1, rowS2], rfl⟩
    ⟨[rowS1, rowS2], List.Perm.refl _, by
      refine List.Pairwise.cons ?_ (List.pairwise_singleton _ _)
      intro b hb
      rw [List.mem_singleton] at hb
      subst hb
      norm_num [rowKey, sqDist, rowS1, rowS2], rfl⟩

/-- C3 counterexample: a store holding two distinct rows with the same
embedding (hence at the same distance from every query under every metric).
The ORDER BY / LIMIT contract admits both orders of the two rows, so two
runs of the search need not return identical lists, and an admitted run
need not keep the underlying storage order [rowA, rowB]. -/
theorem C3_counterexample :
    pgSelectAdmits sqDist e384 [rowA, rowB] 2 [rowA, rowB] ∧
    pgSelectAdmits sqDist e384 [rowA, rowB] 2 [rowB, rowA] ∧
    [rowB, rowA] ≠ [rowA, rowB] := by
  refine ⟨⟨[rowA, rowB], List.Perm.refl _, ?_, rfl⟩,
    ⟨[rowB, rowA], List.Perm.swap rowA rowB [], ?_, rfl⟩, ?_⟩
  · refine List.Pairwise.cons ?_ (List.pairwise_singleton _ _)
    intro b hb
    rw [List.mem_singleton] at hb
    subst hb
    exact le_of_eq rfl
  · refine List.Pairwise.cons ?_ (List.pairwise_singleton _ _)
    intro b hb
    rw [List.mem_singleton] at hb
    subst hb
    exact le_of_eq rfl
  · intro h
    have := List.head_eq_of_cons_eq h
    simp [rowA, rowB] at this

/-- Helper: when every stored embedding matches the query dimension, the
retrieval helper succeeds and returns exactly min k N entries. -/
theorem fetch_length (dist : List ℚ → List ℚ → ℚ) (q : List ℚ)
    (db : List StoredRow) (k : Nat)
    (h : db.all (fun r => r.file.embedding.length == q.length) = true) :
    ∃ l, QueryService.fetch_similar_files_pgvector dist q db k = .ok l ∧
      l.length = min k db.length := by
  unfold QueryService.fetch_similar_files_pgvector pgSelectSimilar
  rw [if_pos h]
  refine ⟨_, rfl, ?_⟩
  simp [List.length_map, List.length_take, List.length_insertionSort]

/-- C4: when the embeddings are dimension-compatible the retrieval helper
returns exactly min(k, N) entries for a corpus of size N; its top_k
parameter defaults to 5, and run_query_pipeline — which passes no k — hence
returns exactly min(5, N) match entries. -/
theorem C4_k_bound (dist : List ℚ → List ℚ → ℚ) (q : List ℚ)
    (db : List StoredRow) (k : Nat)
    (provider : String → Option HttpResponse) (llm : String → String)
    (prompt : String) (e : List ℚ)
    (hq : db.all (fun r => r.file.embedding.length == q.length) = true)
    (hemb : get_embedding provider prompt = .ok e)
    (he : db.all (fun r => r.file.embedding.length == e.length) = true) :
    (∃ l, QueryService.fetch_similar_files_pgvector dist q db k = .ok l ∧
      l.length = min k db.length) ∧
    QueryService.fetch_similar_files_pgvector dist q db =
      QueryService.fetch_similar_files_pgvector dist q db 5 ∧
    (∃ l a, run_query_pipeline dist provider llm prompt db = .ok (l, a) ∧
      l.length = min 5 db.length) := by
  obtain ⟨l2, hl2, hlen2⟩ := fetch_length dist e db 5 he
  refine ⟨fetch_length dist q db k hq, rfl,
    ⟨l2, chain_invoke llm (assembleContext l2) prompt, ?_, hlen2⟩⟩
  unfold run_query_pipeline
  simp only [hemb]
  simp only [hl2]

/-- Witness for C4: a two-row store, k = 1, and a provider answering the
one-dimensional vector [0]. -/
theorem C4_k_bound_witness :
    (∃ l, QueryService.fetch_similar_files_pgvector sqDist [0] [rowS1, rowS2] 1 =
      .ok l ∧ l.length = min 1 ([rowS1, rowS2] : List StoredRow).length) ∧
    QueryService.fetch_similar_files_pgvector sqDist [0] [rowS1, rowS2] =
      QueryService.fetch_similar_files_pgvector sqDist [0] [rowS1, rowS2] 5 ∧
    (∃ l a, run_query_pipeline sqDist okProvider (fun s => s) "hi" [rowS1, rowS2] =
      .ok (l, a) ∧ l.length = min 5 ([rowS1, rowS2] : List StoredRow).length) :=
  C4_k_bound sqDist [0] [rowS1, rowS2] 1 okProvider (fun s => s) "hi" [0]
    (by decide) rfl (by decide)

end Rag
